import Mathlib

/-!
Verification of the mesh-sdk orchestration platform core: the Redis-backed
registry and flow store (`redis_client.py`), the flow execution engine
(`flow_engine.py`), and the liveness supervisor (`platform.py`), shallowly
embedded as pure Lean functions.  External effects (HTTP probes, agent RPC,
JSON parsing of agent replies, wall-clock timestamps) are passed in as
explicit oracle parameters; the Redis store is explicit state.
-/

namespace MeshSdk

/-- JSON values, as produced by `json.loads` / consumed by `json.dumps`.
Numbers are modelled as integers (no claim depends on float values). -/
inductive Json where
  | null : Json
  | bool (b : Bool) : Json
  | num (n : Int) : Json
  | str (s : String) : Json
  | arr (elems : List Json) : Json
  | obj (fields : List (String × Json)) : Json
deriving Repr

/-- The empty JSON object `{}`. -/
def Json.empty : Json := Json.obj []

/-- Python `dict` lookup `d.get(k)` on an association list. -/
def assocGet {α : Type} : List (String × α) → String → Option α
  | [], _ => none
  | (k', v) :: rest, k => if k' = k then some v else assocGet rest k

/-- Python `dict` assignment `d[k] = v` on an association list: overwrite the
existing binding in place, or append a new one. -/
def assocSet {α : Type} (l : List (String × α)) (k : String) (v : α) :
    List (String × α) :=
  match l with
  | [] => [(k, v)]
  | (k', v') :: rest =>
    if k' = k then (k, v) :: rest else (k', v') :: assocSet rest k v

/-! ## Agent registry (`redis_client.py`, agent methods)

The Redis store for agents is the hash `agent:{name}` plus the set `agents`.
Wall-clock timestamps (`datetime.now(UTC).isoformat()`) are passed in as a
`now : String` parameter. -/

/-- An agent record as stored in the `agent:{name}` hash.  Descriptive fields
not consulted by the core are represented by `capabilities`/`description`. -/
structure AgentRec where
  agent_name : String
  agent_type : String
  acp_base_url : String
  auth_token : String
  capabilities : String
  description : String
  status : String
  registered_at : String
  last_verified : String
deriving Repr, DecidableEq

/-- Registry state: `agent:{name}` hashes and the `agents` name set. -/
structure RegSt where
  records : List (String × AgentRec)
  names : List String
deriving Repr, DecidableEq

/-- `RedisClient.register_agent`: insert-if-absent on `agent_name`; on insert,
stamps `status="active"`, `registered_at`, `last_verified`.  Returns the new
state and `True` on success, `False` if the agent already exists. -/
def register_agent (st : RegSt) (agent_data : AgentRec) (now : String) :
    RegSt × Bool :=
  let agent_name := agent_data.agent_name
  match assocGet st.records agent_name with
  | some _ => (st, false)
  | none =>
    let stored := { agent_data with
                    status := "active", registered_at := now,
                    last_verified := now }
    ({ records := assocSet st.records agent_name stored,
       names := if agent_name ∈ st.names then st.names
                else agent_name :: st.names },
     true)

/-- `RedisClient.get_agent` (JSON re-parsing of descriptive fields elided). -/
def get_agent (st : RegSt) (agent_name : String) : Option AgentRec :=
  assocGet st.records agent_name

/-- `RedisClient.update_agent_status`: sets `status` and refreshes
`last_verified`; no-op returning `False` when the agent is unknown. -/
def update_agent_status (st : RegSt) (agent_name status now : String) :
    RegSt × Bool :=
  match assocGet st.records agent_name with
  | none => (st, false)
  | some r =>
    let updated := { r with status := status, last_verified := now }
    ({ st with records := assocSet st.records agent_name updated }, true)

/-- `RedisClient.delete_agent`: removes the record hash and the name from the
`agents` set (the `queue:{name}` cleanup has no observable state here). -/
def delete_agent (st : RegSt) (agent_name : String) : RegSt × Bool :=
  match assocGet st.records agent_name with
  | none => (st, false)
  | some _ =>
    ({ records := st.records.filter (fun p => ¬ p.1 = agent_name),
       names := st.names.filter (fun n => ¬ n = agent_name) },
     true)

/-! ## Flow store (`redis_client.py`, flow methods)

`flow:{id}` hash, `flows` set, and the Redis list `flow:{id}:agents` whose
head is the most recently `lpush`ed entry.  `uuid.uuid4()` is modelled by a
fresh counter; `created_at`/`updated_at` timestamps are not consulted by any
claim and are elided from the flow hash. -/

/-- A flow-agent entry as stored (JSON) in the `flow:{id}:agents` list. -/
structure FlowAgentEntry where
  agent_name : String
  upstream_agents : List String
  required : Bool
  description : String
  added_at : String
deriving Repr, DecidableEq

/-- The projection of a flow-agent entry used by export and import. -/
structure PortableAgent where
  agent_name : String
  upstream_agents : List String
  required : Bool
  description : String
deriving Repr, DecidableEq

/-- A flow definition: the `flow:{id}` hash together with its agents list
(in Redis list order, head = most recent `lpush`). -/
structure FlowRec where
  name : String
  description : String
  imported_from : Option String
  agents : List FlowAgentEntry
deriving Repr, DecidableEq

/-- Flow store state: the `flow:{id}` keys (with their agent lists) and a
counter standing in for `uuid.uuid4()` generation. -/
structure FlowStore where
  flows : List (String × FlowRec)
  nextId : Nat
deriving Repr, DecidableEq

/-- `RedisClient.create_flow`: fresh id, stores the hash, initialises an
empty agents list. -/
def create_flow (st : FlowStore) (name description : String)
    (imported_from : Option String) : FlowStore × String :=
  let flow_id := toString st.nextId
  let fr : FlowRec := { name := name, description := description,
                        imported_from := imported_from, agents := [] }
  ({ flows := assocSet st.flows flow_id fr, nextId := st.nextId + 1 }, flow_id)

/-- `RedisClient.flow_name_exists`: scans all flows for a matching name. -/
def flow_name_exists (st : FlowStore) (name : String) : Bool :=
  st.flows.any (fun p => p.2.name = name)

/-- `RedisClient.get_flow` (hash fields plus the `lrange(0,-1)` agents). -/
def get_flow (st : FlowStore) (flow_id : String) : Option FlowRec :=
  assocGet st.flows flow_id

/-- `RedisClient.delete_flow`: removes the flow hash, agents list and set
membership (per-execution hashes are not modelled). -/
def delete_flow (st : FlowStore) (flow_id : String) : FlowStore × Bool :=
  match assocGet st.flows flow_id with
  | none => (st, false)
  | some _ =>
    ({ st with flows := st.flows.filter (fun p => ¬ p.1 = flow_id) }, true)

/-- `RedisClient.add_agent_to_flow`: rejects a duplicate `agent_name`, then
`lpush`es the new JSON entry onto `flow:{id}:agents`. -/
def add_agent_to_flow (st : FlowStore) (flow_id agent_name : String)
    (upstream_agents : List String) (required : Bool)
    (description now : String) : FlowStore × Bool :=
  match assocGet st.flows flow_id with
  | none => (st, false)
  | some fr =>
    if fr.agents.any (fun a => a.agent_name = agent_name) then (st, false)
    else
      let entry : FlowAgentEntry :=
        { agent_name := agent_name, upstream_agents := upstream_agents,
          required := required, description := description, added_at := now }
      let fr2 := { fr with agents := entry :: fr.agents }
      ({ st with flows := assocSet st.flows flow_id fr2 }, true)

/-- The metadata block attached by `export_flow_data`. -/
structure ExportMeta where
  exported_at : String
  platform_version : String
  agent_count : Nat
  original_flow_id : String
deriving Repr, DecidableEq

/-- The portable object returned by `export_flow_data`. -/
structure ExportData where
  name : String
  description : String
  agents : List PortableAgent
  metadata : ExportMeta
deriving Repr, DecidableEq

/-- `RedisClient.export_flow_data`: projects each agent entry to the four
portable fields, in `get_flow` (Redis list) order. -/
def export_flow_data (st : FlowStore) (flow_id platform_version now : String) :
    Option ExportData :=
  match get_flow st flow_id with
  | none => none
  | some fr =>
    some { name := fr.name, description := fr.description,
           agents := fr.agents.map (fun a =>
             { agent_name := a.agent_name,
               upstream_agents := a.upstream_agents,
               required := a.required, description := a.description }),
           metadata := { exported_at := now,
                         platform_version := platform_version,
                         agent_count := fr.agents.length,
                         original_flow_id := flow_id } }

/-- The portable object accepted by `import_flow_data` (the mandatory `name`
plus the fields it reads, with their code defaults already applied). -/
structure PortableFlow where
  name : String
  description : String
  agents : List PortableAgent
deriving Repr, DecidableEq

/-- Adds the imported agent entries in order, skipping entries with an empty
`agent_name`, exactly as the import loop calls `add_agent_to_flow`. -/
def import_add_agents (st : FlowStore) (flow_id : String)
    (agents_data : List PortableAgent) (now : String) : FlowStore :=
  agents_data.foldl
    (fun acc a =>
      if a.agent_name = "" then acc
      else (add_agent_to_flow acc flow_id a.agent_name a.upstream_agents
              a.required a.description now).1)
    st

/-- `RedisClient.import_flow_data`: name-conflict handling, optional agent
validation warnings, flow creation, then the agent-add loop.  Returns
`(new store, flow_id, warnings)` or the raised `ValueError` message. -/
def import_flow_data (st : FlowStore) (registry : RegSt)
    (flow_data : PortableFlow) (validate_agents overwrite_existing : Bool)
    (now : String) : Except String (FlowStore × String × List String) :=
  let flow_name := flow_data.name
  if ¬ overwrite_existing ∧ flow_name_exists st flow_name then
    Except.error ("Flow " ++ flow_name ++ " already exists")
  else
    let st1 :=
      if overwrite_existing ∧ flow_name_exists st flow_name then
        match st.flows.find? (fun p => p.2.name = flow_name) with
        | some p => (delete_flow st p.1).1
        | none => st
      else st
    let warnings :=
      if validate_agents then
        flow_data.agents.filterMap (fun a =>
          if ¬ a.agent_name = "" ∧ (get_agent registry a.agent_name).isNone
          then some ("Agent " ++ a.agent_name ++
            " not currently registered but will be validated at execution time")
          else none)
      else []
    let created := create_flow st1 flow_name flow_data.description
      (some "json_import")
    let st2 := import_add_agents created.1 created.2 flow_data.agents now
    Except.ok (st2, created.2, warnings)

/-- The stored entry built by `add_agent_to_flow` for an imported portable
agent. -/
def portable_to_entry (now : String) (a : PortableAgent) : FlowAgentEntry :=
  { agent_name := a.agent_name, upstream_agents := a.upstream_agents,
    required := a.required, description := a.description, added_at := now }

/-- The projection applied by `export_flow_data` to each stored entry. -/
def entry_to_portable (a : FlowAgentEntry) : PortableAgent :=
  { agent_name := a.agent_name, upstream_agents := a.upstream_agents,
    required := a.required, description := a.description }

/-- Import a portable flow, then export the flow just created. -/
def import_then_export (st : FlowStore) (registry : RegSt)
    (F : PortableFlow) (va ow : Bool) (now pv now2 : String) :
    Option ExportData :=
  match import_flow_data st registry F va ow now with
  | Except.ok p => export_flow_data p.1 p.2.1 pv now2
  | Except.error _ => none

/-! ## Execution index list (`flow:{id}:executions`) -/

/-- Redis `LRANGE` with inclusive, possibly negative indices. -/
def redis_lrange (l : List String) (start stop : Int) : List String :=
  let n : Int := l.length
  let s : Int := if start < 0 then max (n + start) 0 else start
  let e : Int := if stop < 0 then n + stop else stop
  if e < s then [] else (l.drop s.toNat).take (e - s + 1).toNat

/-- The effect of `RedisClient.create_flow_execution` on the
`flow:{id}:executions` list: `lpush` the fresh id, then `ltrim(0, 99)`. -/
def create_flow_execution_ids (execs : List String) (execution_id : String) :
    List String :=
  (execution_id :: execs).take 100

/-- The id order produced by `RedisClient.list_flow_executions`:
`lrange(0, limit - 1)` over the executions list. -/
def list_flow_execution_ids (execs : List String) (limit : Nat) :
    List String :=
  redis_lrange execs 0 ((limit : Int) - 1)

/-! ## Flow execution engine (`flow_engine.py`)

External effects are oracles: `httpOk` is the HTTP liveness GET keyed by
`acp_base_url`; `beh name input attempt` is the outcome of
`_execute_single_agent` for a node on a given attempt (`Except.error` is a
raised exception).  `asyncio.gather` preserves task order, so a parallel
wave is modelled as a `map` over the wave in list order; `asyncio.sleep`
between retry attempts has no observable state. -/

/-- The per-agent result record written by `update_agent_result`
(`execution_time` is a constant 0 in the source and is elided). -/
structure AgentResult where
  status : String
  output : Json
  error : Option String
  attempts : Nat
deriving Repr

/-- `FlowExecutionEngine._ping_agent`: `False` without a base URL, else the
result of the HTTP GET. -/
def ping_agent (httpOk : String → Bool) (agent_data : AgentRec) : Bool :=
  if agent_data.acp_base_url = "" then false else httpOk agent_data.acp_base_url

/-- The loop body of `_check_flow_health` over the already-filtered required
agents: first missing or non-responding agent yields the error message. -/
def check_required_agents (registry : RegSt) (httpOk : String → Bool) :
    List FlowAgentEntry → Option String
  | [] => none
  | a :: rest =>
    match get_agent registry a.agent_name with
    | none =>
      some ("Required agent " ++ a.agent_name ++ " not found in registry")
    | some r =>
      if ping_agent httpOk r then check_required_agents registry httpOk rest
      else some ("Required agent " ++ a.agent_name ++ " is not responding")

/-- `FlowExecutionEngine._check_flow_health`: probes every `required=True`
node; returns `none` when healthy, or the first error message. -/
def check_flow_health (registry : RegSt) (httpOk : String → Bool)
    (agents : List FlowAgentEntry) : Option String :=
  check_required_agents registry httpOk (agents.filter (fun a => a.required))

/-- Engine-level failures (raised as `RuntimeError` strings in the source;
each constructor carries exactly the data interpolated into the message). -/
inductive FlowError where
  | noStartAgents
  | requiredStartAgentFailed (agent_name msg : String)
  | requiredAgentFailed (agent_name msg : String)
  | circularOrMissing (remaining : List String)
deriving Repr, DecidableEq

/-- In-engine mutable state: the `completed_agents` set, the
`agent_results` dict, and the per-agent records accumulated in the
execution hash by `update_agent_result`. -/
structure EngSt where
  completed : List String
  results : List (String × Json)
  records : List (String × AgentResult)
deriving Repr

/-- Python `set.add` (order of iteration is never observed). -/
def set_add (l : List String) (x : String) : List String :=
  if x ∈ l then l else x :: l

/-- The `for attempt in range(retry_count)` loop of
`_execute_agent_with_retry`, at attempt index `attempt` with `remaining`
further attempts allowed.  Returns the agent outcome together with the last
result record written for the agent. -/
def retry_aux (beh : Nat → Except String Json) (retry_count : Nat) :
    Nat → Nat → Except String Json × AgentResult
  | attempt, 0 =>
    match beh attempt with
    | Except.ok r =>
      (Except.ok r, { status := "completed", output := r, error := none,
                      attempts := attempt + 1 })
    | Except.error e =>
      (Except.error e, { status := "failed", output := Json.empty,
                         error := some e, attempts := retry_count })
  | attempt, remaining + 1 =>
    match beh attempt with
    | Except.ok r =>
      (Except.ok r, { status := "completed", output := r, error := none,
                      attempts := attempt + 1 })
    | Except.error _ => retry_aux beh retry_count (attempt + 1) remaining

/-- `FlowExecutionEngine._execute_agent_with_retry` with the source values
`retry_count = 3` (attempts 0, 1, 2). -/
def execute_agent_with_retry (beh : Nat → Except String Json) :
    Except String Json × AgentResult :=
  retry_aux beh 3 0 2

/-- One parallel wave (`asyncio.gather` over the ready tasks): each node
runs `_execute_agent_with_retry` on its already-built input. -/
def run_wave_raw (beh : String → Json → Nat → Except String Json)
    (wave : List (FlowAgentEntry × Json)) :
    List (FlowAgentEntry × (Except String Json × AgentResult)) :=
  wave.map (fun p => (p.1, execute_agent_with_retry (beh p.1.agent_name p.2)))

/-- The records written during a wave by `update_agent_result` (one write
per node, keyed by agent name). -/
def write_records (records : List (String × AgentResult))
    (outs : List (FlowAgentEntry × (Except String Json × AgentResult))) :
    List (String × AgentResult) :=
  outs.foldl (fun rs p => assocSet rs p.1.agent_name p.2.2) records

/-- The result-processing loop after a wave settles (lines 214-232 for the
start wave, 278-296 otherwise): a required failure raises at once; an
optional failure records `{}` and marks the node completed. -/
def process_wave_results (isStart : Bool) :
    List (FlowAgentEntry × Except String Json) → EngSt →
    Except (FlowError × EngSt) EngSt
  | [], st => Except.ok st
  | (cfg, res) :: rest, st =>
    match res with
    | Except.error e =>
      if cfg.required then
        Except.error
          ((if isStart then FlowError.requiredStartAgentFailed cfg.agent_name e
            else FlowError.requiredAgentFailed cfg.agent_name e), st)
      else
        process_wave_results isStart rest
          { st with results := assocSet st.results cfg.agent_name Json.empty,
                    completed := set_add st.completed cfg.agent_name }
    | Except.ok r =>
      process_wave_results isStart rest
        { st with results := assocSet st.results cfg.agent_name r,
                  completed := set_add st.completed cfg.agent_name }

/-- `{agent["agent_name"]: agent for agent in agents}`: a Python dict
comprehension keeps the last entry for a duplicated key. -/
def agent_map_get (agents : List FlowAgentEntry) (name : String) :
    Option FlowAgentEntry :=
  agents.reverse.find? (fun a => a.agent_name = name)

/-- `FlowExecutionEngine._is_agent_ready`: every known, required upstream
must be completed; unknown upstreams are skipped; optional upstreams never
block. -/
def is_agent_ready (cfg : FlowAgentEntry) (completed : List String)
    (agents : List FlowAgentEntry) : Bool :=
  match cfg.upstream_agents with
  | [] => true
  | ups => ups.all (fun u =>
      match agent_map_get agents u with
      | none => true
      | some ucfg => if ucfg.required then completed.contains u else true)

/-- `FlowExecutionEngine._build_agent_input`: initial input for start nodes,
verbatim pass-through for a single upstream, an object keyed by upstream
name otherwise; a missing entry in `agent_results` contributes `{}`. -/
def build_agent_input (cfg : FlowAgentEntry)
    (agent_results : List (String × Json)) (initial_input : Json) : Json :=
  match cfg.upstream_agents with
  | [] => initial_input
  | [u] => (assocGet agent_results u).getD Json.empty
  | us => Json.obj (us.map (fun u =>
      (u, (assocGet agent_results u).getD Json.empty)))

/-- The `while len(completed_agents) < len(agents)` loop of
`_execute_flow_with_dependencies`.  `fuel` bounds the number of iterations;
every productive wave completes at least one new agent, so
`agents.length` iterations suffice. -/
def flow_loop (beh : String → Json → Nat → Except String Json)
    (agents : List FlowAgentEntry) (input_data : Json) :
    Nat → EngSt → Except (FlowError × EngSt) EngSt
  | 0, st => Except.ok st
  | fuel + 1, st =>
    if st.completed.length < agents.length then
      let ready := agents.filter (fun a =>
        ¬ st.completed.contains a.agent_name ∧
        is_agent_ready a st.completed agents)
      if ready.isEmpty then
        let remaining := (agents.filter (fun a =>
          ¬ st.completed.contains a.agent_name)).map (fun a => a.agent_name)
        if remaining.isEmpty then Except.ok st
        else Except.error (FlowError.circularOrMissing remaining, st)
      else
        let outs := run_wave_raw beh (ready.map (fun a =>
          (a, build_agent_input a st.results input_data)))
        let st1 := { st with records := write_records st.records outs }
        match process_wave_results false
            (outs.map (fun p => (p.1, p.2.1))) st1 with
        | Except.error e => Except.error e
        | Except.ok st2 => flow_loop beh agents input_data fuel st2
    else Except.ok st

/-- Terminal nodes: agents no other agent lists as upstream. -/
def terminal_agents (agents : List FlowAgentEntry) : List String :=
  (agents.filter (fun a =>
    ¬ agents.any (fun o => o.upstream_agents.contains a.agent_name))).map
    (fun a => a.agent_name)

/-- Terminal aggregation (lines 298-322): a single terminal passes its
output through; otherwise an object keyed by terminal name (empty object
for zero terminals). -/
def aggregate_output (agents : List FlowAgentEntry)
    (results : List (String × Json)) : Json :=
  match terminal_agents agents with
  | [f] => (assocGet results f).getD Json.empty
  | fs => Json.obj (fs.map (fun f => (f, (assocGet results f).getD Json.empty)))

/-- `FlowExecutionEngine._execute_flow_with_dependencies`: start wave, the
dependency loop, then terminal aggregation.  Errors carry the engine state
at the raise so the already-written records stay observable. -/
def execute_flow_deps (beh : String → Json → Nat → Except String Json)
    (agents : List FlowAgentEntry) (input_data : Json) :
    Except (FlowError × EngSt) (Json × EngSt) :=
  let start_agents := agents.filter (fun a => a.upstream_agents.isEmpty)
  if start_agents.isEmpty then
    Except.error (FlowError.noStartAgents,
      { completed := [], results := [], records := [] })
  else
    let outs := run_wave_raw beh (start_agents.map (fun a => (a, input_data)))
    let st0 : EngSt :=
      { completed := [], results := [], records := write_records [] outs }
    match process_wave_results true (outs.map (fun p => (p.1, p.2.1))) st0 with
    | Except.error e => Except.error e
    | Except.ok st1 =>
      match flow_loop beh agents input_data agents.length st1 with
      | Except.error e => Except.error e
      | Except.ok st2 => Except.ok (aggregate_output agents st2.results, st2)

/-- The typed failures of `execute_flow` (`ValueError` / `RuntimeError`). -/
inductive ExecError where
  | flowNotFound
  | noAgents
  | flowNotReady (msg : String)
  | engine (e : FlowError)
deriving Repr, DecidableEq

/-- The final execution record stored for an execution (status, error,
output, per-agent results; the structured `error` stands for the stored
`str(e)`, timestamps elided). -/
structure ExecRecord where
  status : String
  error : Option ExecError
  output_data : Json
  agent_results : List (String × AgentResult)
deriving Repr

/-- `FlowExecutionEngine.execute_flow`: flow lookup, execution-record
creation, the pre-flight health check (aborting with `Flow not ready`
before any node runs), the engine proper, and the final record update.
`none` in the second component means no execution record was created
(the flow-not-found / no-agents `ValueError`s fire before creation). -/
def execute_flow (registry : RegSt) (httpOk : String → Bool)
    (beh : String → Json → Nat → Except String Json)
    (store : FlowStore) (flow_id : String) (input_data : Json) :
    Except ExecError Json × Option ExecRecord :=
  match get_flow store flow_id with
  | none => (Except.error ExecError.flowNotFound, none)
  | some fr =>
    if fr.agents.isEmpty then (Except.error ExecError.noAgents, none)
    else
      match check_flow_health registry httpOk fr.agents with
      | some msg =>
        (Except.error (ExecError.flowNotReady msg),
         some { status := "failed", error := some (ExecError.flowNotReady msg),
                output_data := Json.empty, agent_results := [] })
      | none =>
        match execute_flow_deps beh fr.agents input_data with
        | Except.error (e, st) =>
          (Except.error (ExecError.engine e),
           some { status := "failed", error := some (ExecError.engine e),
                  output_data := Json.empty, agent_results := st.records })
        | Except.ok (out, st) =>
          (Except.ok out,
           some { status := "completed", error := none, output_data := out,
                  agent_results := st.records })

/-! ## Single-agent response handling (`_execute_single_agent`) -/

/-- One part of an ACP output message (the opaque `content` string). -/
structure MsgPart where
  content : String
deriving Repr, DecidableEq

/-- An ACP output message: a sequence of parts. -/
structure AcpMessage where
  parts : List MsgPart
deriving Repr, DecidableEq

/-- The response-handling tail of `_execute_single_agent` (lines 495-508):
no output means `{}`; otherwise the first part of the first message is
`json.loads`-parsed (`parse` is the oracle for `json.loads`), falling back
to `{"content": <raw>}` on `JSONDecodeError`.  An empty parts sequence
raises (`IndexError` wrapped into the `ACP execution failed` error). -/
def execute_single_agent_result (parse : String → Option Json)
    (output : List AcpMessage) : Except String Json :=
  match output with
  | [] => Except.ok Json.empty
  | m :: _ =>
    match m.parts with
    | [] => Except.error "ACP execution failed: message has no parts"
    | p :: _ =>
      match parse p.content with
      | some j => Except.ok j
      | none => Except.ok (Json.obj [("content", Json.str p.content)])

/-! ## Liveness supervisor (`platform.py`)

One background prober per agent.  A prober's interaction with the world is
the sequence of probe outcomes it observes, each paired with the wall-clock
timestamp at that iteration; the `asyncio.sleep(ping_interval)` suspension
has no observable state. -/

/-- Platform state shared by the probers: the registry plus the
`ping_tasks` table (modelled by the set of agent names owning a task). -/
structure PlatSt where
  reg : RegSt
  ping_tasks : List String
deriving Repr, DecidableEq

/-- `PlatformCore._start_agent_ping_loop` on the task table: cancel any
existing task for the name, then store the new one. -/
def start_ping_task (tasks : List String) (agent_name : String) :
    List String :=
  if agent_name ∈ tasks then tasks else agent_name :: tasks

/-- One iteration of `PlatformCore._ping_agent_loop` with consecutive
failure counter `c` and probe outcome `ok`.  Returns the new platform
state, the new counter, and whether the loop `break`s. -/
def ping_step (st : PlatSt) (agent_name : String) (c : Nat) (ok : Bool)
    (now : String) : PlatSt × Nat × Bool :=
  if ok then
    ({ st with reg := (update_agent_status st.reg agent_name "active" now).1 },
     0, false)
  else if c + 1 ≥ 3 then
    ({ reg := (delete_agent st.reg agent_name).1,
       ping_tasks := st.ping_tasks.filter (fun n => ¬ n = agent_name) },
     c + 1, true)
  else (st, c + 1, false)

/-- A run of `_ping_agent_loop` over a finite prefix of probe outcomes
(the loop body repeats until cancelled; a run observing `outcomes` either
consumes them all or stops at the eviction `break`). -/
def run_ping_loop (agent_name : String) :
    List (Bool × String) → PlatSt → Nat → PlatSt
  | [], st, _ => st
  | (ok, now) :: rest, st, c =>
    let step := ping_step st agent_name c ok now
    if step.2.2 then step.1
    else run_ping_loop agent_name rest step.1 step.2.1

/-- Whether a probe-outcome sequence contains three consecutive failures. -/
def has_three_consecutive_failures : List Bool → Bool
  | false :: false :: false :: _ => true
  | _ :: rest => has_three_consecutive_failures rest
  | [] => false

/-- Whether the prober loop started with counter `c` reaches the eviction
branch while observing `outcomes` (the Boolean mirror of the loop). -/
def loop_deletes (c : Nat) : List Bool → Bool
  | [] => false
  | ok :: rest =>
    if ok then loop_deletes 0 rest
    else if c + 1 ≥ 3 then true
    else loop_deletes (c + 1) rest

/-- One agent of `PlatformCore._restore_existing_agents`: a successful
one-shot verification spawns a prober; a failed one marks the agent
`inactive` via `update_agent_status` and deletes nothing. -/
def restore_agent_step (st : PlatSt) (agent : AgentRec) (verifyOk : Bool)
    (now : String) : PlatSt :=
  if verifyOk then
    { st with ping_tasks := start_ping_task st.ping_tasks agent.agent_name }
  else
    { st with
      reg := (update_agent_status st.reg agent.agent_name "inactive" now).1 }

/-- The whole startup restoration: one verification probe per agent found
in the store (entries with an empty name are skipped, as in the source). -/
def restore_existing_agents (st : PlatSt) (verifyOk : String → Bool)
    (now : String) : PlatSt :=
  (st.reg.names.filterMap (fun n => get_agent st.reg n)).foldl
    (fun acc a =>
      if a.agent_name = "" then acc
      else restore_agent_step acc a (verifyOk a.agent_name) now)
    st

/-! ## Concrete sample data for witnesses and counterexamples -/

/-- A registry record template used by concrete scenarios. -/
def mkAgentRec (name : String) : AgentRec :=
  { agent_name := name, agent_type := "worker", acp_base_url := "http://x",
    auth_token := "tok", capabilities := "[\x22echo\x22]", description := "",
    status := "active", registered_at := "t0", last_verified := "t0" }

/-- The empty registry. -/
def emptyReg : RegSt := { records := [], names := [] }

/-- A registry holding agents `a`, `p`, `q`. -/
def regAPQ : RegSt :=
  { records := [("a", mkAgentRec "a"), ("p", mkAgentRec "p"),
                ("q", mkAgentRec "q")],
    names := ["a", "p", "q"] }

/-- Flow entry template. -/
def mkEntry (name : String) (ups : List String) (req : Bool) :
    FlowAgentEntry :=
  { agent_name := name, upstream_agents := ups, required := req,
    description := "", added_at := "t0" }

/-- The two-node all-cyclic flow `[p (up=[q]), q (up=[p])]` of the claim. -/
def cycleFlowPQ : FlowRec :=
  { name := "cyc", description := "", imported_from := none,
    agents := [mkEntry "p" ["q"] true, mkEntry "q" ["p"] true] }

/-- The flow `[a (up=[]), p (up=[q]), q (up=[p])]`: one start node plus a
cyclic remainder. -/
def cycleFlowAPQ : FlowRec :=
  { name := "cyc3", description := "", imported_from := none,
    agents := [mkEntry "a" [] true, mkEntry "p" ["q"] true,
               mkEntry "q" ["p"] true] }

/-- A store holding `cycleFlowPQ` under id `0`. -/
def storeCyclePQ : FlowStore := { flows := [("0", cycleFlowPQ)], nextId := 1 }

/-- A store holding `cycleFlowAPQ` under id `0`. -/
def storeCycleAPQ : FlowStore :=
  { flows := [("0", cycleFlowAPQ)], nextId := 1 }

/-- A behaviour oracle on which every invocation succeeds with `{}`. -/
def behOk : String → Json → Nat → Except String Json :=
  fun _ _ _ => Except.ok Json.empty

/-- The empty flow store. -/
def emptyFlowStore : FlowStore := { flows := [], nextId := 0 }

/-- A two-agent portable flow used for the round-trip scenario. -/
def sampleFlow : PortableFlow :=
  { name := "W", description := "doc pipeline",
    agents := [{ agent_name := "alpha", upstream_agents := [],
                 required := true, description := "first" },
               { agent_name := "beta", upstream_agents := ["alpha"],
                 required := true, description := "second" }] }

/-- The agents list exported after importing `sampleFlow` (computed). -/
def sampleFlowExportedAgents : Option (List PortableAgent) :=
  match import_flow_data emptyFlowStore emptyReg sampleFlow false false "t1"
    with
  | Except.ok p =>
    (export_flow_data p.1 p.2.1 "0.1.0" "t2").map ExportData.agents
  | Except.error _ => none

/-- A registry holding one agent `a` whose stored record is `inactive`. -/
def regInactiveA : RegSt :=
  { records := [("a", { mkAgentRec "a" with status := "inactive" })],
    names := ["a"] }

/-- A `json.loads` oracle that parses exactly the string `7`. -/
def parseNum : String → Option Json :=
  fun s => if s = "7" then some (Json.num 7) else none

/-- An ACP reply whose first part parses as JSON. -/
def msgJson : AcpMessage := { parts := [{ content := "7" }] }

/-- An ACP reply whose first part is not JSON. -/
def msgRaw : AcpMessage := { parts := [{ content := "hello" }] }

/-- A behaviour on which every attempt of every agent raises. -/
def behFail : Nat → Except String Json := fun _ => Except.error "boom"

/-- An optional flow node used in masking scenarios. -/
def optNode : FlowAgentEntry := mkEntry "c" ["a"] false

/-- A required flow node used in masking scenarios. -/
def reqNode : FlowAgentEntry := mkEntry "b" ["a"] true

/-- The empty engine state. -/
def engSt0 : EngSt := { completed := [], results := [], records := [] }

/-- A platform state owning agent `a` and its prober. -/
def platA : PlatSt :=
  { reg := { records := [("a", mkAgentRec "a")], names := ["a"] },
    ping_tasks := ["a"] }

/-- A platform state with a stale agent `s` awaiting restoration. -/
def platStale : PlatSt :=
  { reg := { records := [("s", mkAgentRec "s")], names := ["s"] },
    ping_tasks := [] }

/-! ## Helper lemmas -/

theorem assocGet_assocSet_self {α : Type} (l : List (String × α)) (k : String)
    (v : α) : assocGet (assocSet l k v) k = some v := by
  induction l with
  | nil => simp [assocSet, assocGet]
  | cons p rest ih =>
    by_cases h : p.1 = k
    · simp [assocSet, assocGet, h]
    · simpa [assocSet, assocGet, h] using ih

theorem assocGet_assocSet_ne {α : Type} (l : List (String × α)) (k k' : String)
    (v : α) (h : ¬ k' = k) :
    assocGet (assocSet l k v) k' = assocGet l k' := by
  have h2 : ¬ k = k' := fun hh => h hh.symm
  induction l with
  | nil => simp [assocSet, assocGet, h2]
  | cons p rest ih =>
    obtain ⟨pk, pv⟩ := p
    by_cases hp : pk = k
    · subst hp
      simp [assocSet, assocGet, h2]
    · simp [assocSet, assocGet, hp, ih]

theorem assocGet_filter_self {α : Type} (l : List (String × α)) (k : String) :
    assocGet (l.filter (fun p => ¬ p.1 = k)) k = none := by
  induction l with
  | nil => simp [assocGet]
  | cons p rest ih =>
    by_cases h : p.1 = k
    · simpa [List.filter, h] using ih
    · simpa [List.filter, h, assocGet] using ih

theorem delete_agent_absent (st : RegSt) (n : String) :
    assocGet (delete_agent st n).1.records n = none := by
  unfold delete_agent
  cases h : assocGet st.records n with
  | none => simpa using h
  | some r => simpa using assocGet_filter_self st.records n

theorem update_agent_status_present (st : RegSt) (n status now : String)
    (r : AgentRec) (h : assocGet st.records n = some r) :
    assocGet (update_agent_status st n status now).1.records n =
      some { r with status := status, last_verified := now } := by
  simp [update_agent_status, h, assocGet_assocSet_self]

theorem take_append_take {α : Type} (l m : List α) (n : Nat) :
    (l ++ m.take n).take n = (l ++ m).take n := by
  rw [List.take_append_eq_append_take, List.take_append_eq_append_take,
      List.take_take, Nat.min_eq_left (Nat.sub_le n l.length)]

theorem foldl_create_execs (ids : List String) :
    ∀ acc : List String, acc.take 100 = acc →
      List.foldl create_flow_execution_ids acc ids =
        (ids.reverse ++ acc).take 100 := by
  induction ids with
  | nil =>
    intro acc h
    simpa using h.symm
  | cons e rest ih =>
    intro acc h
    have h2 : ((e :: acc).take 100).take 100 = (e :: acc).take 100 := by
      rw [List.take_take]
      simp
    calc List.foldl create_flow_execution_ids acc (e :: rest)
        = List.foldl create_flow_execution_ids
            (create_flow_execution_ids acc e) rest := rfl
      _ = (rest.reverse ++ (e :: acc).take 100).take 100 := ih _ h2
      _ = (rest.reverse ++ (e :: acc)).take 100 := take_append_take _ _ _
      _ = ((e :: rest).reverse ++ acc).take 100 := by simp

theorem lrange_zero_limit (l : List String) (limit : Nat) (h : 1 ≤ limit) :
    list_flow_execution_ids l limit = l.take limit := by
  have h2 : ¬ ((limit : Int) - 1 < 0) := by omega
  have h3 : ((limit : Int) - 1 - 0 + 1).toNat = limit := by omega
  simp [list_flow_execution_ids, redis_lrange, h2, h3]

/-! ## Claim theorems -/

/-- C6: for an agent name already present in the registry, `register_agent`
returns the already-exists outcome (`False`) and leaves the whole registry
state unchanged, whatever the stored record (in particular whatever its
`status`); for an absent name, it inserts the record with `status=active`
and the fresh `registered_at`/`last_verified` timestamps and returns
success. -/
theorem register_agent_claim (st : RegSt) (d : AgentRec) (now : String)
    (r : AgentRec) :
    (assocGet st.records d.agent_name = some r →
      register_agent st d now = (st, false)) ∧
    (assocGet st.records d.agent_name = none →
      (register_agent st d now).2 = true ∧
      assocGet (register_agent st d now).1.records d.agent_name =
        some { d with status := "active",
                      registered_at := now,
                      last_verified := now }) := by
  constructor
  · intro h
    simp [register_agent, h]
  · intro h
    simp [register_agent, h, assocGet_assocSet_self]

/-- Witness for C6 at a registry holding an `inactive` record for `a` and
at the empty registry. -/
theorem register_agent_claim_witness :
    register_agent regInactiveA (mkAgentRec "a") "t9" =
      (regInactiveA, false) ∧
    ((register_agent emptyReg (mkAgentRec "a") "t9").2 = true ∧
      assocGet (register_agent emptyReg (mkAgentRec "a") "t9").1.records
        (mkAgentRec "a").agent_name =
        some { mkAgentRec "a" with status := "active",
                                   registered_at := "t9",
                                   last_verified := "t9" }) :=
  ⟨(register_agent_claim regInactiveA (mkAgentRec "a") "t9"
      { mkAgentRec "a" with status := "inactive" }).1 (by decide),
   (register_agent_claim emptyReg (mkAgentRec "a") "t9" (mkAgentRec "a")).2
     (by decide)⟩

/-- C9: after any sequence of execution creations starting from an empty
index, the `flow:{id}:executions` list equals the most-recent-first
sequence of ids truncated to 100 (so its length never exceeds 100 and the
oldest ids are the ones evicted), and `list_flow_executions` returns a
prefix of it in the same most-recent-first order. -/
theorem executions_index_claim (ids : List String) (limit : Nat)
    (h : 1 ≤ limit) :
    List.foldl create_flow_execution_ids [] ids = ids.reverse.take 100 ∧
    (List.foldl create_flow_execution_ids [] ids).length ≤ 100 ∧
    list_flow_execution_ids (List.foldl create_flow_execution_ids [] ids)
      limit = (ids.reverse.take 100).take limit := by
  have hmain : List.foldl create_flow_execution_ids [] ids =
      ids.reverse.take 100 := by
    simpa using foldl_create_execs ids [] (by simp)
  refine ⟨hmain, ?_, ?_⟩
  · rw [hmain, List.length_take]
    exact Nat.min_le_left _ _
  · rw [hmain, lrange_zero_limit _ _ h]

/-- Witness for C9 at a concrete three-creation history and `limit = 2`. -/
theorem executions_index_claim_witness :
    (1 ≤ 2) ∧
    (List.foldl create_flow_execution_ids [] ["e1", "e2", "e3"] =
      (["e1", "e2", "e3"] : List String).reverse.take 100 ∧
     (List.foldl create_flow_execution_ids [] ["e1", "e2", "e3"]).length
       ≤ 100 ∧
     list_flow_execution_ids
       (List.foldl create_flow_execution_ids [] ["e1", "e2", "e3"]) 2 =
       ((["e1", "e2", "e3"] : List String).reverse.take 100).take 2) :=
  ⟨by decide, executions_index_claim ["e1", "e2", "e3"] 2 (by decide)⟩

/-- C10: an answered invocation records `{}` when the agent returns no
output messages; the parsed value when the first part of the first message
parses as JSON; and `{"content": <raw>}` otherwise — so a non-JSON reply is
never propagated as a bare string. -/
theorem single_agent_result_claim (parse : String → Option Json)
    (m : AcpMessage) (ms : List AcpMessage) (p : MsgPart) (ps : List MsgPart)
    (j : Json) :
    execute_single_agent_result parse [] = Except.ok Json.empty ∧
    (m.parts = p :: ps →
      ((parse p.content = some j →
         execute_single_agent_result parse (m :: ms) = Except.ok j) ∧
       (parse p.content = none →
         execute_single_agent_result parse (m :: ms) =
           Except.ok (Json.obj [("content", Json.str p.content)]) ∧
         ∀ s, ¬ execute_single_agent_result parse (m :: ms) =
           Except.ok (Json.str s)))) := by
  refine ⟨rfl, fun hp => ⟨fun hj => ?_, fun hn => ⟨?_, ?_⟩⟩⟩
  · simp [execute_single_agent_result, hp, hj]
  · simp [execute_single_agent_result, hp, hn]
  · intro s h
    have h2 : execute_single_agent_result parse (m :: ms) =
        Except.ok (Json.obj [("content", Json.str p.content)]) := by
      simp [execute_single_agent_result, hp, hn]
    rw [h2] at h
    exact Json.noConfusion (Except.ok.inj h)

/-- Witness for C10 on a JSON reply, a raw reply and an empty reply. -/
theorem single_agent_result_claim_witness :
    execute_single_agent_result parseNum [] = Except.ok Json.empty ∧
    execute_single_agent_result parseNum [msgJson] =
      Except.ok (Json.num 7) ∧
    execute_single_agent_result parseNum [msgRaw] =
      Except.ok (Json.obj [("content", Json.str "hello")]) ∧
    ¬ execute_single_agent_result parseNum [msgRaw] =
      Except.ok (Json.str "hello") :=
  ⟨(single_agent_result_claim parseNum msgJson [] ⟨"7"⟩ [] (Json.num 7)).1,
   ((single_agent_result_claim parseNum msgJson [] ⟨"7"⟩ []
       (Json.num 7)).2 rfl).1 rfl,
   (((single_agent_result_claim parseNum msgRaw [] ⟨"hello"⟩ []
        (Json.num 7)).2 rfl).2 rfl).1,
   (((single_agent_result_claim parseNum msgRaw [] ⟨"hello"⟩ []
        (Json.num 7)).2 rfl).2 rfl).2 "hello"⟩

/-- C5: input composition — the flow's initial `input_data` for a node
without upstreams, the upstream's recorded output verbatim for exactly one
upstream, an object keyed by upstream name for two or more; and a failed
optional upstream is recorded as `{}` by the wave processor, so a dependent
composes `{}` for it. -/
theorem build_agent_input_claim (cfg cfgU : FlowAgentEntry)
    (results : List (String × Json)) (init v : Json) (u : String)
    (us : List String) (isStart : Bool) (e : String)
    (rest : List (FlowAgentEntry × Except String Json)) (st : EngSt) :
    (cfg.upstream_agents = [] → build_agent_input cfg results init = init) ∧
    (cfg.upstream_agents = [u] → assocGet results u = some v →
      build_agent_input cfg results init = v) ∧
    (cfg.upstream_agents = u :: us → ¬ us = [] →
      build_agent_input cfg results init =
        Json.obj ((u :: us).map (fun w =>
          (w, (assocGet results w).getD Json.empty)))) ∧
    (cfgU.required = false →
      process_wave_results isStart ((cfgU, Except.error e) :: rest) st =
        process_wave_results isStart rest
          { st with results := assocSet st.results cfgU.agent_name Json.empty,
                    completed := set_add st.completed cfgU.agent_name } ∧
      (cfg.upstream_agents = [cfgU.agent_name] →
        build_agent_input cfg
          (assocSet st.results cfgU.agent_name Json.empty) init =
          Json.empty)) := by
  refine ⟨fun h => ?_, fun h hv => ?_, fun h hne => ?_,
          fun hreq => ⟨?_, fun hup => ?_⟩⟩
  · simp [build_agent_input, h]
  · simp [build_agent_input, h, hv]
  · rcases us with _ | ⟨u2, us2⟩
    · exact absurd rfl hne
    · simp [build_agent_input, h]
  · simp [process_wave_results, hreq]
  · simp [build_agent_input, hup, assocGet_assocSet_self]

/-- Witness for C5: a diamond-style state where optional `c` failed. -/
theorem build_agent_input_claim_witness :
    build_agent_input (mkEntry "a" [] true) [] (Json.str "in") =
      Json.str "in" ∧
    build_agent_input (mkEntry "y" ["x"] true) [("x", Json.str "out")]
      Json.empty = Json.str "out" ∧
    build_agent_input (mkEntry "d" ["b", "c"] true)
      [("b", Json.str "bo"), ("c", Json.empty)] Json.empty =
      Json.obj [("b", Json.str "bo"), ("c", Json.empty)] ∧
    (process_wave_results false ((optNode, Except.error "boom") :: []) engSt0 =
       process_wave_results false []
         { engSt0 with
             results := assocSet engSt0.results optNode.agent_name Json.empty,
             completed := set_add engSt0.completed optNode.agent_name } ∧
     build_agent_input (mkEntry "d" ["c"] true)
       (assocSet engSt0.results optNode.agent_name Json.empty) Json.empty =
       Json.empty) :=
  ⟨(build_agent_input_claim (mkEntry "a" [] true) optNode [] (Json.str "in")
      (Json.str "in") "x" [] false "e" [] engSt0).1 rfl,
   (build_agent_input_claim (mkEntry "y" ["x"] true) optNode
      [("x", Json.str "out")] Json.empty (Json.str "out") "x" [] false "e"
      [] engSt0).2.1 rfl rfl,
   (build_agent_input_claim (mkEntry "d" ["b", "c"] true) optNode
      [("b", Json.str "bo"), ("c", Json.empty)] Json.empty Json.empty "b"
      ["c"] false "e" [] engSt0).2.2.1 rfl (by simp),
   ((build_agent_input_claim (mkEntry "d" ["c"] true) optNode [] Json.empty
      Json.empty "c" [] false "boom" [] engSt0).2.2.2 rfl).1,
   ((build_agent_input_claim (mkEntry "d" ["c"] true) optNode [] Json.empty
      Json.empty "c" [] false "boom" [] engSt0).2.2.2 rfl).2 rfl⟩

/-- C3: a node is invoked on at most 3 attempts (the outcome depends only
on the first three attempts, and the recorded attempt count never exceeds
3); when every attempt raises, the retry helper raises the last error after
writing a result record with `status="failed"`, output `{}` and
`attempts = 3`; the wave processor then fails the whole execution with an
error naming the node when it is required, and records `{}`, marks the node
completed and continues with the remaining results when it is optional. -/
theorem retry_and_masking_claim (beh beh2 : Nat → Except String Json)
    (msgs : Nat → String) (cfg : FlowAgentEntry) (e : String)
    (isStart : Bool) (rest : List (FlowAgentEntry × Except String Json))
    (st : EngSt) :
    ((∀ i, i < 3 → beh i = beh2 i) →
      execute_agent_with_retry beh = execute_agent_with_retry beh2) ∧
    (execute_agent_with_retry beh).2.attempts ≤ 3 ∧
    ((∀ i, i < 3 → beh i = Except.error (msgs i)) →
      execute_agent_with_retry beh =
        (Except.error (msgs 2),
         { status := "failed", output := Json.empty, error := some (msgs 2),
           attempts := 3 })) ∧
    (cfg.required = true →
      process_wave_results isStart ((cfg, Except.error e) :: rest) st =
        Except.error
          ((if isStart then
              FlowError.requiredStartAgentFailed cfg.agent_name e
            else FlowError.requiredAgentFailed cfg.agent_name e), st)) ∧
    (cfg.required = false →
      process_wave_results isStart ((cfg, Except.error e) :: rest) st =
        process_wave_results isStart rest
          { st with results := assocSet st.results cfg.agent_name Json.empty,
                    completed := set_add st.completed cfg.agent_name } ∧
      assocGet (assocSet st.results cfg.agent_name Json.empty)
        cfg.agent_name = some Json.empty ∧
      cfg.agent_name ∈ set_add st.completed cfg.agent_name) := by
  refine ⟨fun hb => ?_, ?_, fun hf => ?_, fun hreq => ?_,
          fun hreq => ⟨?_, ?_, ?_⟩⟩
  · have h0 := hb 0 (by omega)
    have h1 := hb 1 (by omega)
    have h2 := hb 2 (by omega)
    unfold execute_agent_with_retry
    rcases e0 : beh2 0 with m0 | v0 <;>
      rcases e1 : beh2 1 with m1 | v1 <;>
        rcases e2 : beh2 2 with m2 | v2 <;>
          simp [retry_aux, h0, h1, h2, e0, e1, e2]
  · rcases e0 : beh 0 with m0 | v0 <;>
      rcases e1 : beh 1 with m1 | v1 <;>
        rcases e2 : beh 2 with m2 | v2 <;>
          simp [execute_agent_with_retry, retry_aux, e0, e1, e2]
  · have h0 := hf 0 (by omega)
    have h1 := hf 1 (by omega)
    have h2 := hf 2 (by omega)
    simp [execute_agent_with_retry, retry_aux, h0, h1, h2]
  · simp [process_wave_results, hreq]
  · simp [process_wave_results, hreq]
  · exact assocGet_assocSet_self _ _ _
  · by_cases h : cfg.agent_name ∈ st.completed <;> simp [set_add, h]

/-- Witness for C3: an always-failing behaviour, a required node and an
optional node. -/
theorem retry_and_masking_claim_witness :
    execute_agent_with_retry behFail = execute_agent_with_retry behFail ∧
    (execute_agent_with_retry behFail).2.attempts ≤ 3 ∧
    execute_agent_with_retry behFail =
      (Except.error "boom",
       { status := "failed", output := Json.empty, error := some "boom",
         attempts := 3 }) ∧
    process_wave_results false ((reqNode, Except.error "boom") :: []) engSt0 =
      Except.error
        (FlowError.requiredAgentFailed reqNode.agent_name "boom", engSt0) ∧
    (process_wave_results false ((optNode, Except.error "boom") :: []) engSt0 =
       process_wave_results false []
         { engSt0 with
             results := assocSet engSt0.results optNode.agent_name Json.empty,
             completed := set_add engSt0.completed optNode.agent_name } ∧
     assocGet (assocSet engSt0.results optNode.agent_name Json.empty)
       optNode.agent_name = some Json.empty ∧
     optNode.agent_name ∈ set_add engSt0.completed optNode.agent_name) :=
  ⟨(retry_and_masking_claim behFail behFail (fun _ => "boom") reqNode "boom"
      false [] engSt0).1 (fun _ _ => rfl),
   (retry_and_masking_claim behFail behFail (fun _ => "boom") reqNode "boom"
      false [] engSt0).2.1,
   (retry_and_masking_claim behFail behFail (fun _ => "boom") reqNode "boom"
      false [] engSt0).2.2.1 (fun _ _ => rfl),
   (retry_and_masking_claim behFail behFail (fun _ => "boom") reqNode "boom"
      false [] engSt0).2.2.2.1 rfl,
   (retry_and_masking_claim behFail behFail (fun _ => "boom") optNode "boom"
      false [] engSt0).2.2.2.2 rfl⟩

theorem check_required_agents_congr (registry : RegSt)
    (h1 h2 : String → Bool) :
    ∀ l : List FlowAgentEntry,
      (∀ a ∈ l, ∀ r, get_agent registry a.agent_name = some r →
        h1 r.acp_base_url = h2 r.acp_base_url) →
      check_required_agents registry h1 l =
        check_required_agents registry h2 l := by
  intro l
  induction l with
  | nil => intro _; rfl
  | cons a rest ih =>
    intro hag
    cases hg : get_agent registry a.agent_name with
    | none => simp [check_required_agents, hg]
    | some r =>
      have heq := hag a (by simp) r hg
      have hp : ping_agent h1 r = ping_agent h2 r := by
        unfold ping_agent
        by_cases hu : r.acp_base_url = ""
        · simp [hu]
        · simp [hu, heq]
      cases hpv : ping_agent h2 r with
      | false => simp [check_required_agents, hg, hp, hpv]
      | true =>
        simp [check_required_agents, hg, hp, hpv]
        exact ih (fun b hb r2 hr2 => hag b (by simp [hb]) r2 hr2)

/-- C4: when the pre-flight health check fails, the whole execution aborts
with the flow-not-ready error and a `failed` execution record holding no
per-agent results, and the outcome does not depend on the invocation
behaviour (no agent is invoked); the health check itself only consults the
probe on `required=true` nodes, so its result is unchanged under any probe
oracle agreeing on the required nodes. -/
theorem flow_not_ready_claim (registry : RegSt)
    (httpOk httpOk2 : String → Bool)
    (beh beh2 : String → Json → Nat → Except String Json)
    (store : FlowStore) (flow_id : String) (input : Json) (fr : FlowRec)
    (msg : String) :
    (get_flow store flow_id = some fr → fr.agents.isEmpty = false →
      check_flow_health registry httpOk fr.agents = some msg →
      (execute_flow registry httpOk beh store flow_id input =
        (Except.error (ExecError.flowNotReady msg),
         some { status := "failed",
                error := some (ExecError.flowNotReady msg),
                output_data := Json.empty, agent_results := [] }) ∧
       execute_flow registry httpOk beh store flow_id input =
         execute_flow registry httpOk beh2 store flow_id input)) ∧
    ((∀ a ∈ fr.agents, a.required = true →
        ∀ r, get_agent registry a.agent_name = some r →
          httpOk r.acp_base_url = httpOk2 r.acp_base_url) →
      check_flow_health registry httpOk fr.agents =
        check_flow_health registry httpOk2 fr.agents) := by
  constructor
  · intro hg hne hh
    constructor
    · simp [execute_flow, hg, hne, hh]
    · simp [execute_flow, hg, hne, hh]
  · intro hag
    unfold check_flow_health
    apply check_required_agents_congr
    intro a ha r hr
    have hmem := List.mem_filter.mp ha
    exact hag a hmem.1 hmem.2 r hr

/-- Witness for C4: the cyclic flow over an empty registry is not ready
(required `p` is missing), so execution aborts identically for two
different behaviours; the health check agrees between an all-true and an
all-false probe oracle on the empty registry. -/
theorem flow_not_ready_claim_witness :
    (execute_flow emptyReg (fun _ => true) behOk storeCyclePQ "0"
       Json.empty =
      (Except.error (ExecError.flowNotReady
         "Required agent p not found in registry"),
       some { status := "failed",
              error := some (ExecError.flowNotReady
                "Required agent p not found in registry"),
              output_data := Json.empty, agent_results := [] }) ∧
     execute_flow emptyReg (fun _ => true) behOk storeCyclePQ "0"
       Json.empty =
      execute_flow emptyReg (fun _ => true)
        (fun _ _ _ => Except.error "down") storeCyclePQ "0" Json.empty) ∧
    check_flow_health emptyReg (fun _ => true) cycleFlowPQ.agents =
      check_flow_health emptyReg (fun _ => false) cycleFlowPQ.agents :=
  ⟨(flow_not_ready_claim emptyReg (fun _ => true) (fun _ => false) behOk
      (fun _ _ _ => Except.error "down") storeCyclePQ "0" Json.empty
      cycleFlowPQ "Required agent p not found in registry").1 rfl rfl rfl,
   (flow_not_ready_claim emptyReg (fun _ => true) (fun _ => false) behOk
      (fun _ _ _ => Except.error "down") storeCyclePQ "0" Json.empty
      cycleFlowPQ "Required agent p not found in registry").2
     (fun _ _ _ _ hr => Option.noConfusion hr)⟩

/-- C2 (amended): a flow in which every node has a non-empty
`upstream_agents` list has an empty start set and fails with the
no-start-agents error, not the circular-dependency one; when at least one
start node exists and the cyclic pair `{p, q}` remains, execution fails
with the circular-or-missing-dependency error naming exactly the stuck
nodes. -/
theorem cycle_detection_claim
    (beh : String → Json → Nat → Except String Json)
    (agents : List FlowAgentEntry) (input : Json) :
    ((∀ a ∈ agents, ¬ a.upstream_agents = []) →
      execute_flow_deps beh agents input =
        Except.error (FlowError.noStartAgents,
          { completed := [], results := [], records := [] })) ∧
    (execute_flow regAPQ (fun _ => true) behOk storeCycleAPQ "0"
        Json.empty).1 =
      Except.error (ExecError.engine
        (FlowError.circularOrMissing ["p", "q"])) := by
  constructor
  · intro h
    have hf : agents.filter (fun a => a.upstream_agents.isEmpty) = [] := by
      rw [List.filter_eq_nil_iff]
      intro a ha
      simpa [List.isEmpty_iff] using h a ha
    simp [execute_flow_deps, hf]
  · rfl

/-- Witness for C2 at the two concrete flows of the scenario. -/
theorem cycle_detection_claim_witness :
    execute_flow_deps behOk cycleFlowPQ.agents Json.empty =
      Except.error (FlowError.noStartAgents,
        { completed := [], results := [], records := [] }) ∧
    (execute_flow regAPQ (fun _ => true) behOk storeCycleAPQ "0"
        Json.empty).1 =
      Except.error (ExecError.engine
        (FlowError.circularOrMissing ["p", "q"])) :=
  ⟨(cycle_detection_claim behOk cycleFlowPQ.agents Json.empty).1
     (by decide),
   (cycle_detection_claim behOk cycleFlowPQ.agents Json.empty).2⟩

/-- Counterexample for C2 as stated: executing the two-node all-cyclic flow
`[p (up=[q]), q (up=[p])]` (both agents registered and responding) yields
the no-start-agents engine error, not the circular-or-missing-dependency
error naming `{p, q}`. -/
theorem cycle_claim_counterexample :
    (execute_flow regAPQ (fun _ => true) behOk storeCyclePQ "0"
        Json.empty).1 =
      Except.error (ExecError.engine FlowError.noStartAgents) ∧
    ¬ (execute_flow regAPQ (fun _ => true) behOk storeCyclePQ "0"
        Json.empty).1 =
      Except.error (ExecError.engine
        (FlowError.circularOrMissing ["p", "q"])) := by
  constructor
  · rfl
  · intro h
    have h2 : (Except.error (ExecError.engine FlowError.noStartAgents) :
        Except ExecError Json) =
        Except.error (ExecError.engine
          (FlowError.circularOrMissing ["p", "q"])) := h
    have h3 := ExecError.engine.inj (Except.error.inj h2)
    exact FlowError.noConfusion h3

theorem import_add_agents_spec (now : String) :
    ∀ (L : List PortableAgent) (st : FlowStore) (fid : String) (fr : FlowRec),
      assocGet st.flows fid = some fr →
      (∀ a ∈ L, ¬ a.agent_name = "") →
      (L.map PortableAgent.agent_name).Nodup →
      (∀ a ∈ L, ∀ e ∈ fr.agents, ¬ e.agent_name = a.agent_name) →
      assocGet (import_add_agents st fid L now).flows fid =
        some { fr with agents :=
                 (L.map (portable_to_entry now)).reverse ++ fr.agents } := by
  intro L
  induction L with
  | nil =>
    intro st fid fr hget _ _ _
    simpa [import_add_agents] using hget
  | cons a rest ih =>
    intro st fid fr hget hne hnd hfr
    have hnea : ¬ a.agent_name = "" := hne a (by simp)
    have hdup2 : ¬ ∃ e ∈ fr.agents, e.agent_name = a.agent_name := by
      rintro ⟨e, he, hee⟩
      exact hfr a (by simp) e he hee
    have hstep : import_add_agents st fid (a :: rest) now = import_add_agents { st with flows := assocSet st.flows fid { fr with agents := portable_to_entry now a :: fr.agents } } fid rest now := by
      simp [import_add_agents, hnea, add_agent_to_flow, hget, hdup2,
            portable_to_entry]
    have hnotin : a.agent_name ∉ rest.map PortableAgent.agent_name :=
      (List.nodup_cons.mp (by simpa using hnd)).1
    have ihres := ih { st with flows := assocSet st.flows fid { fr with agents := portable_to_entry now a :: fr.agents } } fid { fr with agents := portable_to_entry now a :: fr.agents }
      (by simp [assocGet_assocSet_self])
      (fun b hb => hne b (by simp [hb]))
      (by simpa using (List.nodup_cons.mp (by simpa using hnd)).2)
      (by
        intro b hb e he
        rcases List.mem_cons.mp he with he1 | he2
        · subst he1
          intro hcon
          apply hnotin
          have hab : a.agent_name = b.agent_name := by
            simpa [portable_to_entry] using hcon
          rw [hab]
          exact List.mem_map_of_mem PortableAgent.agent_name hb
        · exact hfr b (List.mem_cons_of_mem a hb) e he2)
    rw [hstep, ihres]
    congr 1
    simp [List.reverse_cons, List.append_assoc]

/-- C1 (amended): importing a portable flow (with pairwise-distinct,
non-empty agent names) into a store without a name conflict and exporting
the created flow yields the same `name` and `description`, but the agents
sequence comes back in reverse import order (the import loop `lpush`es each
entry, while export reads the list front to back); the per-entry fields
survive the round-trip. -/
theorem import_export_claim (st : FlowStore) (registry : RegSt)
    (F : PortableFlow) (va : Bool) (now pv now2 : String)
    (hname : flow_name_exists st F.name = false)
    (hne : ∀ a ∈ F.agents, ¬ a.agent_name = "")
    (hnd : (F.agents.map PortableAgent.agent_name).Nodup) :
    import_then_export st registry F va false now pv now2 =
      some { name := F.name, description := F.description,
             agents := F.agents.reverse,
             metadata := { exported_at := now2, platform_version := pv,
                           agent_count := F.agents.length,
                           original_flow_id := toString st.nextId } } := by
  have hagents := import_add_agents_spec now F.agents { flows := assocSet st.flows (toString st.nextId) { name := F.name, description := F.description, imported_from := some "json_import", agents := [] }, nextId := st.nextId + 1 } (toString st.nextId) { name := F.name, description := F.description, imported_from := some "json_import", agents := [] }
    (by simp [assocGet_assocSet_self]) hne hnd
    (fun a _ e he => absurd he (List.not_mem_nil e))
  have hcomp : ((fun a : FlowAgentEntry =>
      ({ agent_name := a.agent_name, upstream_agents := a.upstream_agents,
         required := a.required,
         description := a.description } : PortableAgent)) ∘
        portable_to_entry now) = id := funext (fun _ => rfl)
  unfold import_then_export
  simp only [import_flow_data, hname, Bool.not_eq_true, and_false,
             false_and, if_false, Bool.false_eq_true, and_true, ite_false]
  simp only [create_flow]
  simp [export_flow_data, get_flow, hagents, List.map_reverse,
        List.map_map, hcomp]

/-- Witness for C1 at the two-agent sample flow over the empty store. -/
theorem import_export_claim_witness :
    flow_name_exists emptyFlowStore sampleFlow.name = false ∧
    import_then_export emptyFlowStore emptyReg sampleFlow false false "t1"
        "0.1.0" "t2" =
      some { name := sampleFlow.name,
             description := sampleFlow.description,
             agents := sampleFlow.agents.reverse,
             metadata := { exported_at := "t2", platform_version := "0.1.0",
                           agent_count := sampleFlow.agents.length,
                           original_flow_id :=
                             toString emptyFlowStore.nextId } } :=
  ⟨rfl,
   import_export_claim emptyFlowStore emptyReg sampleFlow false "t1" "0.1.0"
     "t2" rfl (by decide) (by decide)⟩

/-- Counterexample for C1 as stated: importing the two-agent sample flow
and exporting yields the agents sequence `[beta, alpha]`, not the imported
order `[alpha, beta]`. -/
theorem import_export_claim_counterexample :
    sampleFlowExportedAgents =
      some [{ agent_name := "beta", upstream_agents := ["alpha"],
              required := true, description := "second" },
            { agent_name := "alpha", upstream_agents := [],
              required := true, description := "first" }] ∧
    ¬ sampleFlowExportedAgents = some sampleFlow.agents := by
  constructor
  · decide
  · decide

theorem run_ping_loop_deletes (agent_name : String) :
    ∀ (l : List (Bool × String)) (st : PlatSt) (c : Nat),
      loop_deletes c (l.map Prod.fst) = true →
      assocGet (run_ping_loop agent_name l st c).reg.records agent_name =
        none ∧
      agent_name ∉ (run_ping_loop agent_name l st c).ping_tasks := by
  intro l
  induction l with
  | nil =>
    intro st c h
    simp [loop_deletes] at h
  | cons o rest ih =>
    intro st c h
    obtain ⟨ok, now⟩ := o
    cases ok with
    | true =>
      have h2 : loop_deletes 0 (rest.map Prod.fst) = true := by
        simpa [loop_deletes] using h
      simpa [run_ping_loop, ping_step] using ih _ 0 h2
    | false =>
      by_cases h3 : c + 1 ≥ 3
      · refine ⟨?_, ?_⟩
        · simp [run_ping_loop, ping_step, h3, delete_agent_absent]
        · simp [run_ping_loop, ping_step, h3, List.mem_filter]
      · have h2 : loop_deletes (c + 1) (rest.map Prod.fst) = true := by
          simpa [loop_deletes, h3] using h
        simpa [run_ping_loop, ping_step, h3] using ih _ (c + 1) h2

theorem has_three_cons_false (rest : List Bool)
    (h : has_three_consecutive_failures (false :: rest) = true) :
    (∃ tl, rest = false :: false :: tl) ∨
      has_three_consecutive_failures rest = true := by
  rcases rest with _ | ⟨b2, rest2⟩
  · simp [has_three_consecutive_failures] at h
  · cases b2 with
    | false =>
      rcases rest2 with _ | ⟨b3, rest3⟩
      · simp [has_three_consecutive_failures] at h
      · cases b3 with
        | false => exact Or.inl ⟨rest3, rfl⟩
        | true =>
          right
          simpa [has_three_consecutive_failures] using h
    | true =>
      right
      simpa [has_three_consecutive_failures] using h

theorem three_fails_loop_deletes :
    ∀ (l : List Bool) (c : Nat),
      has_three_consecutive_failures l = true → loop_deletes c l = true := by
  intro l
  induction l with
  | nil =>
    intro c h
    simp [has_three_consecutive_failures] at h
  | cons b rest ih =>
    intro c h
    cases b with
    | true =>
      have h2 : has_three_consecutive_failures rest = true := by
        simpa [has_three_consecutive_failures] using h
      simpa [loop_deletes] using ih 0 h2
    | false =>
      by_cases h3 : c + 1 ≥ 3
      · simp [loop_deletes, h3]
      · rcases has_three_cons_false rest h with ⟨tl, htl⟩ | h4
        · subst htl
          have h5 : c + 2 + 1 ≥ 3 := by omega
          by_cases h4 : c + 1 + 1 ≥ 3
          · simp [loop_deletes, h3, h4]
          · simp [loop_deletes, h3, h4, h5]
        · simpa [loop_deletes, h3] using ih (c + 1) h4

/-- C7: in every prober-loop iteration a successful probe resets the
consecutive-failure counter to zero, keeps the loop running and rewrites
the record with `status=active` and a fresh `last_verified`; and whenever
the observed outcome sequence contains three consecutive failures, the run
ends with the agent deleted from the registry and its prober entry gone. -/
theorem ping_loop_claim (agent_name : String) (st : PlatSt) (c : Nat)
    (outcomes : List (Bool × String)) (now : String) (r : AgentRec) :
    ((ping_step st agent_name c true now).2.1 = 0 ∧
     (ping_step st agent_name c true now).2.2 = false ∧
     (assocGet st.reg.records agent_name = some r →
       assocGet (ping_step st agent_name c true now).1.reg.records
         agent_name =
         some { r with status := "active", last_verified := now })) ∧
    ((ping_step st agent_name 2 false now).2.2 = true ∧
     assocGet (ping_step st agent_name 2 false now).1.reg.records
       agent_name = none ∧
     agent_name ∉ (ping_step st agent_name 2 false now).1.ping_tasks) ∧
    (has_three_consecutive_failures (outcomes.map Prod.fst) = true →
      assocGet (run_ping_loop agent_name outcomes st c).reg.records
        agent_name = none ∧
      agent_name ∉ (run_ping_loop agent_name outcomes st c).ping_tasks) := by
  refine ⟨⟨rfl, rfl, fun h => ?_⟩, ⟨rfl, ?_, ?_⟩, fun h => ?_⟩
  · simpa [ping_step] using
      update_agent_status_present st.reg agent_name "active" now r h
  · simpa [ping_step] using delete_agent_absent st.reg agent_name
  · simp [ping_step, List.mem_filter]
  · exact run_ping_loop_deletes agent_name outcomes st c
      (three_fails_loop_deletes _ c h)

/-- Witness for C7: one successful probe on `platA`, then a run with three
consecutive failures evicting `a`. -/
theorem ping_loop_claim_witness :
    ((ping_step platA "a" 0 true "t5").2.1 = 0 ∧
     (ping_step platA "a" 0 true "t5").2.2 = false ∧
     assocGet (ping_step platA "a" 0 true "t5").1.reg.records "a" =
       some { mkAgentRec "a" with status := "active",
                                  last_verified := "t5" }) ∧
    ((ping_step platA "a" 2 false "t5").2.2 = true ∧
     assocGet (ping_step platA "a" 2 false "t5").1.reg.records "a" =
       none ∧
     "a" ∉ (ping_step platA "a" 2 false "t5").1.ping_tasks) ∧
    (assocGet (run_ping_loop "a" [(false, "u1"), (false, "u2"),
        (false, "u3")] platA 0).reg.records "a" = none ∧
     "a" ∉ (run_ping_loop "a" [(false, "u1"), (false, "u2"),
        (false, "u3")] platA 0).ping_tasks) :=
  ⟨⟨(ping_loop_claim "a" platA 0 [] "t5" (mkAgentRec "a")).1.1,
    (ping_loop_claim "a" platA 0 [] "t5" (mkAgentRec "a")).1.2.1,
    (ping_loop_claim "a" platA 0 [] "t5" (mkAgentRec "a")).1.2.2 rfl⟩,
   (ping_loop_claim "a" platA 0 [] "t5" (mkAgentRec "a")).2.1,
   (ping_loop_claim "a" platA 0 [(false, "u1"), (false, "u2"),
      (false, "u3")] "t5" (mkAgentRec "a")).2.2 rfl⟩

/-- C8 (amended): when the one-shot verification probe fails during
startup restoration, the agent record is kept — its `status` is set to
`inactive` and its `last_verified` timestamp is refreshed, every other
record is untouched, the name set is unchanged and nothing is deleted;
when the probe succeeds, a prober is spawned for the agent. -/
theorem restore_claim (st : PlatSt) (a : AgentRec) (now : String)
    (r : AgentRec) :
    (assocGet st.reg.records a.agent_name = some r →
      assocGet (restore_agent_step st a false now).reg.records
        a.agent_name =
        some { r with status := "inactive", last_verified := now } ∧
      (∀ k, ¬ k = a.agent_name →
        assocGet (restore_agent_step st a false now).reg.records k =
          assocGet st.reg.records k) ∧
      (restore_agent_step st a false now).reg.names = st.reg.names ∧
      (restore_agent_step st a false now).ping_tasks = st.ping_tasks) ∧
    ((restore_agent_step st a true now).reg = st.reg ∧
     a.agent_name ∈ (restore_agent_step st a true now).ping_tasks) := by
  constructor
  · intro h
    refine ⟨?_, ?_, ?_, ?_⟩
    · simpa [restore_agent_step] using
        update_agent_status_present st.reg a.agent_name "inactive" now r h
    · intro k hk
      simp [restore_agent_step, update_agent_status, h,
            assocGet_assocSet_ne _ _ _ _ hk]
    · simp [restore_agent_step, update_agent_status, h]
    · simp [restore_agent_step]
  · constructor
    · rfl
    · by_cases h2 : a.agent_name ∈ st.ping_tasks <;>
        simp [restore_agent_step, start_ping_task, h2]

/-- Witness for C8 on the stale platform state. -/
theorem restore_claim_witness :
    (assocGet (restore_agent_step platStale (mkAgentRec "s") false
        "t1").reg.records "s" =
      some { mkAgentRec "s" with status := "inactive",
                                 last_verified := "t1" } ∧
     (restore_agent_step platStale (mkAgentRec "s") false "t1").reg.names =
       platStale.reg.names ∧
     (restore_agent_step platStale (mkAgentRec "s") false
        "t1").ping_tasks = platStale.ping_tasks) ∧
    ((restore_agent_step platStale (mkAgentRec "s") true "t1").reg =
       platStale.reg ∧
     "s" ∈ (restore_agent_step platStale (mkAgentRec "s") true
        "t1").ping_tasks) :=
  ⟨⟨((restore_claim platStale (mkAgentRec "s") "t1"
       (mkAgentRec "s")).1 rfl).1,
    ((restore_claim platStale (mkAgentRec "s") "t1"
       (mkAgentRec "s")).1 rfl).2.2.1,
    ((restore_claim platStale (mkAgentRec "s") "t1"
       (mkAgentRec "s")).1 rfl).2.2.2⟩,
   (restore_claim platStale (mkAgentRec "s") "t1" (mkAgentRec "s")).2⟩

/-- Counterexample for C8 as stated: after a failed restoration probe the
stored record differs from the old record with only `status` flipped — the
`last_verified` field is refreshed as well (`update_agent_status` always
stamps it). -/
theorem restore_claim_counterexample :
    assocGet (restore_agent_step platStale (mkAgentRec "s") false
        "t1").reg.records "s" =
      some { mkAgentRec "s" with status := "inactive",
                                 last_verified := "t1" } ∧
    ¬ assocGet (restore_agent_step platStale (mkAgentRec "s") false
        "t1").reg.records "s" =
      some { mkAgentRec "s" with status := "inactive" } := by
  constructor
  · decide
  · decide

end MeshSdk
